import Mathlib

/-!
Verification development for the `shutdown` package of SpaceCafe/go-parts.

The package implements a graceful-lifecycle coordinator: a `Shutdown` struct
owning two cancellable contexts (`runtimeCtx`, `shutdownCtx`), a
`sync.WaitGroup` counting in-flight tracked work, a pluggable `ExitFn`, and
the operations `Track`, `Go`, `Drain`, `Shutdown`, `Wait`, `Done`, plus a
`Config` with `SetDefaults`/`Validate`.

The embedding below translates that Go code into pure Lean functions over an
explicit coordinator state.  Concurrency is modelled by explicit scheduler
events: the background stop-waiter goroutines spawned by `Track` and the
`observeShutdown` goroutines spawned by `Drain`/`Shutdown` are recorded in the
state (`stopWaiters`, `observers`) and executed by a `settle` event, which runs
every unblocked waiter to completion and fires every `observeShutdown` whose
`waitGroup.Wait()` has returned (i.e. when the pending count is zero).  The
race inside `Shutdown` between the grace timer and the wait-group draining is
resolved by comparing the configured timeout with the slowest registered stop
duration (a tie is resolved in favour of the graceful branch); launched tasks
(`Go`) complete only at an explicit `taskDone` event, so a task still running
when `Shutdown` is called does not finish within the grace window.
-/

namespace GoParts

/-- Durations in nanoseconds, as Go's `time.Duration` (an `int64`). -/
abbrev Duration := Int

/-- Go's `time.Second` expressed in nanoseconds. -/
def Second : Duration := 1000000000

/-- Field-for-field translation of `shutdown.Config` (config.go):
`Timeout` is the grace duration, `Force` the forced-termination flag. -/
structure Config where
  Timeout : Duration
  Force : Bool
deriving DecidableEq

/-- The error value `ErrInvalidTimeout = errors.New("shutdown timeout must be positive")`. -/
def ErrInvalidTimeout : String := "shutdown timeout must be positive"

/-- The error value `ErrContextCancelled = errors.New("shutdown: context cancelled")`. -/
def ErrContextCancelled : String := "shutdown: context cancelled"

/-- Translation of `Config.SetDefaults`: sets `Timeout = time.Second * 3`
and `Force = true`, overwriting both fields. -/
def Config.SetDefaults (_ : Config) : Config :=
  { Timeout := 3 * Second, Force := true }

/-- Translation of `Config.Validate`: returns `ErrInvalidTimeout` when
`c.Timeout <= 0`, nil otherwise. -/
def Config.Validate (c : Config) : Except String Unit :=
  if c.Timeout ≤ 0 then .error ErrInvalidTimeout else .ok ()

/-- The constant `ExitCodeSigTerm = 128 + int(syscall.SIGTERM)`;
`syscall.SIGTERM` is signal number 15 on Linux. -/
def ExitCodeSigTerm : Nat := 128 + 15

/-- Log severities used by the package (`slog` levels via the `log.Logger`
interface). -/
inductive Level
  | debug
  | info
  | error
deriving DecidableEq

/-- The fixed log messages emitted by the shutdown package, one constructor
per format string appearing in the source:
`initializingDrain` = "shutdown: initializing drain",
`startingTask` = "shutdown: starting task",
`initializingShutdown` = "shutdown: initializing shutdown",
`gracefullyCompleted` = "shutdown: shutdown gracefully completed",
`timedOut` = "shutdown: shutdown timed out",
`shuttingDownForcefully` = "shutdown: shutting down forcefully",
`failedToStopService` = "shutdown: failed to stop service",
`startingService` = "shutdown: starting service",
`allTasksCompleted` = "shutdown: all tasks completed". -/
inductive Msg
  | initializingDrain
  | startingTask
  | initializingShutdown
  | gracefullyCompleted
  | timedOut
  | shuttingDownForcefully
  | failedToStopService
  | startingService
  | allTasksCompleted
deriving DecidableEq

/-- One emitted log record: severity, message, and the structured `"error"`
attribute attached by `Log.Error("shutdown: failed to stop service", "error", err)`. -/
structure LogEntry where
  level : Level
  msg : Msg
  err : Option String := none
deriving DecidableEq

/-- A consumer implementation of the `Trackable` interface, described by the
observable behaviour of its two methods: the error returned by `Start`, the
error returned by `Stop`, and how long `Stop` takes before returning. -/
structure Service where
  startErr : Option String
  stopErr : Option String
  stopDuration : Duration
deriving DecidableEq

/-- The `service any` argument of `Track`: Go's `nil`, a non-nil value whose
type assertion to `Trackable` fails, or a `Trackable` implementation. -/
inductive TrackArg
  | nil
  | notTrackable
  | trackable (svc : Service)
deriving DecidableEq

/-- State of the `Shutdown` struct together with the goroutines it has
spawned.  `runtimeCancelled`/`shutdownCancelled` are the cancellation status
of `runtimeCtx`/`shutdownCtx`; `pendingCount` is the `sync.WaitGroup`
counter; `runningTasks` counts goroutines launched by `Go` that have not yet
returned; `stopWaiters` are the stop-waiter goroutines spawned by `Track`
that are still blocked on `<-runtimeCtx.Done()`; `stopped` records services
whose `Stop` has been invoked; `observers` records spawned `observeShutdown`
goroutines (`true` when given the `cancelShutdownFn` callback, `false` for
`Drain`'s `nil` callback); `exitCalls` records every invocation of `ExitFn`
with its argument. -/
structure Shutdown where
  runtimeCancelled : Bool
  shutdownCancelled : Bool
  pendingCount : Nat
  runningTasks : Nat
  stopWaiters : List Service
  stopped : List Service
  observers : List Bool
  log : List LogEntry
  exitCalls : List Nat
  cfg : Config
deriving DecidableEq

/-- Translation of `New`: both contexts live, empty wait group, no spawned
goroutines.  The signal-listening goroutine `New` also spawns merely routes
external OS signals to `Shutdown`/`Drain`; signals are external inputs here,
so its effect is covered by invoking those operations directly. -/
def New (cfg : Config) : Shutdown :=
  { runtimeCancelled := false
    shutdownCancelled := false
    pendingCount := 0
    runningTasks := 0
    stopWaiters := []
    stopped := []
    observers := []
    log := []
    exitCalls := []
    cfg := cfg }

/-- Translation of `Track` (shutdown.go lines 212-244).  The returned pair is
(returned error, state of the receiver after the call); Go mutations persist
even when an error is returned.  Faithfully to the source, `waitGroup.Add(1)`
happens before the nil/type-assertion checks, and only the `Trackable` branch
spawns the stop-waiter goroutine whose deferred `waitGroup.Done()` eventually
decrements the counter. -/
def Shutdown.Track (s : Shutdown) (service : TrackArg) : Option String × Shutdown :=
  if s.runtimeCancelled then
    (some ErrContextCancelled, s)
  else
    let s1 : Shutdown := { s with pendingCount := s.pendingCount + 1 }
    match service with
    | .nil => (none, s1)
    | .notTrackable => (none, s1)
    | .trackable svc =>
      let s2 : Shutdown := { s1 with stopWaiters := s1.stopWaiters ++ [svc] }
      match svc.startErr with
      | some e =>
        (some ("shutdown: starting service service: " ++ e), s2)
      | none =>
        (none, { s2 with
                  log := s2.log ++ [⟨Level.debug, Msg.startingService, none⟩] })

/-- Translation of `Go` (shutdown.go lines 172-187): guard on the cancelled
runtime context, `waitGroup.Add(1)`, debug log, then the task runs in a new
goroutine (counted by `runningTasks` until its `taskDone` event). -/
def Shutdown.Go (s : Shutdown) : Option String × Shutdown :=
  if s.runtimeCancelled then
    (some ErrContextCancelled, s)
  else
    (none, { s with
              pendingCount := s.pendingCount + 1
              log := s.log ++ [⟨Level.debug, Msg.startingTask, none⟩]
              runningTasks := s.runningTasks + 1 })

/-- Completion of one goroutine launched by `Go`: its deferred
`waitGroup.Done()` runs. -/
def Shutdown.taskDone (s : Shutdown) : Shutdown :=
  if s.runningTasks = 0 then s
  else { s with
          runningTasks := s.runningTasks - 1
          pendingCount := s.pendingCount - 1 }

/-- Translation of `Drain` (shutdown.go lines 162-167): info log, cancel the
runtime context, and spawn `observeShutdown(nil)` (an observer without the
shutdown-cancelling callback). -/
def Shutdown.Drain (s : Shutdown) : Shutdown :=
  { s with
      log := s.log ++ [⟨Level.info, Msg.initializingDrain, none⟩]
      runtimeCancelled := true
      observers := s.observers ++ [false] }

/-- Body of one stop-waiter goroutine once `<-s.runtimeCtx.Done()` has
unblocked: invoke `Stop(shutdownCtx)`, log its error (if any) at error
severity, then the deferred `waitGroup.Done()` decrements the counter. -/
def Shutdown.runWaiter (s : Shutdown) (svc : Service) : Shutdown :=
  { s with
      stopped := s.stopped ++ [svc]
      log := s.log ++
        (match svc.stopErr with
         | some e => [⟨Level.error, Msg.failedToStopService, some e⟩]
         | none => [])
      pendingCount := s.pendingCount - 1 }

/-- Log records produced by running a list of stop waiters in order. -/
def stopLog : List Service → List LogEntry
  | [] => []
  | svc :: rest =>
    (match svc.stopErr with
     | some e => [⟨Level.error, Msg.failedToStopService, some e⟩]
     | none => []) ++ stopLog rest

/-- Run every registered stop waiter to completion (they all unblock when the
runtime context is cancelled). -/
def Shutdown.runWaiters (s : Shutdown) : Shutdown :=
  s.stopWaiters.foldl Shutdown.runWaiter { s with stopWaiters := [] }

/-- Fire every spawned `observeShutdown` goroutine whose
`s.waitGroup.Wait()` has returned: when the pending count is zero, each one
logs "shutdown: all tasks completed" and, if it was given the
`cancelShutdownFn` callback, cancels the shutdown context.  While the count
is positive they all stay blocked. -/
def Shutdown.fireObservers (s : Shutdown) : Shutdown :=
  if s.pendingCount = 0 then
    { s with
        observers := []
        log := s.log ++ s.observers.map (fun _ => ⟨Level.info, Msg.allTasksCompleted, none⟩)
        shutdownCancelled := s.shutdownCancelled || s.observers.any id }
  else s

/-- Scheduler event: once the runtime context is cancelled, run all stop
waiters to completion and then fire the unblocked observers.  Before
cancellation every one of those goroutines is still blocked, so nothing
happens. -/
def Shutdown.settle (s : Shutdown) : Shutdown :=
  if s.runtimeCancelled then s.runWaiters.fireObservers else s

/-- Slowest `Stop` duration among the registered stop waiters (zero when
there are none): the time after runtime cancellation at which the wait group
would reach zero, were every pending increment owned by a stop waiter. -/
def maxStop (l : List Service) : Duration :=
  l.foldl (fun acc svc => max acc svc.stopDuration) 0

/-- Whether the wait group will drain on its own after runtime cancellation:
no launched task is still running and every pending increment is owned by a
registered stop waiter. -/
def Shutdown.willDrain (s : Shutdown) : Bool :=
  s.runningTasks == 0 && s.pendingCount == s.stopWaiters.length

/-- Translation of `Shutdown.Shutdown` (shutdown.go lines 191-209): info log,
cancel the runtime context, spawn `observeShutdown(cancelShutdownFn)`, then
`select` between `<-shutdownCtx.Done()` (log "gracefully completed") and
`<-time.After(cfg.Timeout)` (cancel the shutdown context, log "timed out").
The select resolves gracefully when the shutdown context is already cancelled
or when the wait group drains within the grace timeout (tie to graceful);
afterwards, when `cfg.Force` is set, `ExitFn(ExitCodeSigTerm)` is invoked
unconditionally. -/
def Shutdown.shutdown (s : Shutdown) : Shutdown :=
  let s1 : Shutdown := { s with
    log := s.log ++ [⟨Level.info, Msg.initializingShutdown, none⟩]
    runtimeCancelled := true
    observers := s.observers ++ [true] }
  let graceful : Bool :=
    s.shutdownCancelled || (s.willDrain && decide (maxStop s.stopWaiters ≤ s.cfg.Timeout))
  let s2 := s1.settle
  let s3 : Shutdown :=
    if graceful then
      { s2 with log := s2.log ++ [⟨Level.info, Msg.gracefullyCompleted, none⟩] }
    else
      { s2 with
          shutdownCancelled := true
          log := s2.log ++ [⟨Level.error, Msg.timedOut, none⟩] }
  if s.cfg.Force then
    { s3 with
        log := s3.log ++ [⟨Level.info, Msg.shuttingDownForcefully, none⟩]
        exitCalls := s3.exitCalls ++ [ExitCodeSigTerm] }
  else s3

/-- The channels a caller can hold: the done channel of either context. -/
inductive DoneChan
  | runtimeChan
  | shutdownChan
deriving DecidableEq

/-- Translation of `Done` (shutdown.go lines 153-157): the method body first
executes `<-s.runtimeCtx.Done()` — a blocking receive, modelled as `none`
while the runtime context is live — and only then returns
`s.shutdownCtx.Done()`. -/
def Shutdown.Done (s : Shutdown) : Option DoneChan :=
  if s.runtimeCancelled then some DoneChan.shutdownChan else none

/-- Translation of `Wait` (shutdown.go lines 248-251): blocks on
`<-runtimeCtx.Done()` then `<-shutdownCtx.Done()`; the call has returned
exactly when both contexts are cancelled. -/
def Shutdown.waitReturns (s : Shutdown) : Bool :=
  s.runtimeCancelled && s.shutdownCancelled

/-- External events that can be applied to a coordinator: the public calls
plus the scheduler events completing spawned goroutines. -/
inductive Op
  | track (a : TrackArg)
  | go
  | taskDone
  | drain
  | shutdown
  | settle
deriving DecidableEq

/-- Apply one event (discarding returned errors, which do not feed back into
the state). -/
def Shutdown.step (s : Shutdown) : Op → Shutdown
  | .track a => (s.Track a).2
  | .go => s.Go.2
  | .taskDone => s.taskDone
  | .drain => s.Drain
  | .shutdown => s.shutdown
  | .settle => s.settle

/-- Apply a sequence of events. -/
def Shutdown.exec (s : Shutdown) (ops : List Op) : Shutdown :=
  ops.foldl Shutdown.step s

/-- Number of log records carrying a given message. -/
def countMsg (m : Msg) (l : List LogEntry) : Nat :=
  (l.filter (fun e => e.msg == m)).length

/-- Number of completion lines: "shutdown gracefully completed" plus
"shutdown timed out" records. -/
def completionCount (l : List LogEntry) : Nat :=
  countMsg Msg.gracefullyCompleted l + countMsg Msg.timedOut l

/-! Helper lemmas characterising the pieces of the model. -/

lemma countMsg_append (m : Msg) (l1 l2 : List LogEntry) :
    countMsg m (l1 ++ l2) = countMsg m l1 + countMsg m l2 := by
  simp [countMsg, List.filter_append]

lemma countMsg_nil (m : Msg) : countMsg m [] = 0 := rfl

lemma countMsg_stopLog (m : Msg) (l : List Service)
    (h : m ≠ Msg.failedToStopService) : countMsg m (stopLog l) = 0 := by
  induction l with
  | nil => rfl
  | cons svc rest ih =>
    rw [stopLog, countMsg_append, ih]
    cases hsvc : svc.stopErr with
    | none => simp [countMsg]
    | some e =>
      simp only [countMsg, List.filter, Nat.add_zero]
      have : (Msg.failedToStopService == m) = false := by
        cases m <;> simp_all
      simp [this]

lemma countMsg_replicate_allTasks (m : Msg) (n : Nat)
    (h : m ≠ Msg.allTasksCompleted) :
    countMsg m (List.replicate n (⟨Level.info, Msg.allTasksCompleted, none⟩ : LogEntry)) = 0 := by
  induction n with
  | zero => rfl
  | succ k ih =>
    rw [List.replicate_succ]
    have hm : (Msg.allTasksCompleted == m) = false := by
      cases m <;> simp_all
    simp only [countMsg, List.filter, hm] at ih ⊢
    exact ih

lemma stopLog_append (l1 l2 : List Service) :
    stopLog (l1 ++ l2) = stopLog l1 ++ stopLog l2 := by
  induction l1 with
  | nil => simp [stopLog]
  | cons svc rest ih => simp [stopLog, ih]

lemma foldl_runWaiter_eq (l : List Service) (s : Shutdown) :
    l.foldl Shutdown.runWaiter s =
      { s with stopped := s.stopped ++ l
               log := s.log ++ stopLog l
               pendingCount := s.pendingCount - l.length } := by
  induction l generalizing s with
  | nil => simp [stopLog]
  | cons svc rest ih =>
    rw [List.foldl_cons, ih]
    simp [Shutdown.runWaiter, stopLog, List.append_assoc]
    omega

lemma runWaiters_eq (s : Shutdown) :
    s.runWaiters =
      { s with stopWaiters := []
               stopped := s.stopped ++ s.stopWaiters
               log := s.log ++ stopLog s.stopWaiters
               pendingCount := s.pendingCount - s.stopWaiters.length } := by
  rw [Shutdown.runWaiters, foldl_runWaiter_eq]

lemma fireObservers_runtimeCancelled (s : Shutdown) :
    s.fireObservers.runtimeCancelled = s.runtimeCancelled := by
  rw [Shutdown.fireObservers]; split <;> rfl

lemma fireObservers_pendingCount (s : Shutdown) :
    s.fireObservers.pendingCount = s.pendingCount := by
  rw [Shutdown.fireObservers]; split <;> rfl

lemma fireObservers_runningTasks (s : Shutdown) :
    s.fireObservers.runningTasks = s.runningTasks := by
  rw [Shutdown.fireObservers]; split <;> rfl

lemma fireObservers_stopWaiters (s : Shutdown) :
    s.fireObservers.stopWaiters = s.stopWaiters := by
  rw [Shutdown.fireObservers]; split <;> rfl

lemma fireObservers_stopped (s : Shutdown) :
    s.fireObservers.stopped = s.stopped := by
  rw [Shutdown.fireObservers]; split <;> rfl

lemma fireObservers_exitCalls (s : Shutdown) :
    s.fireObservers.exitCalls = s.exitCalls := by
  rw [Shutdown.fireObservers]; split <;> rfl

lemma fireObservers_cfg (s : Shutdown) :
    s.fireObservers.cfg = s.cfg := by
  rw [Shutdown.fireObservers]; split <;> rfl

lemma fireObservers_shutdownCancelled (s : Shutdown) :
    s.fireObservers.shutdownCancelled =
      (s.shutdownCancelled || (decide (s.pendingCount = 0) && s.observers.any id)) := by
  rw [Shutdown.fireObservers]
  split
  all_goals simp_all

lemma fireObservers_countMsg (m : Msg) (s : Shutdown) (h : m ≠ Msg.allTasksCompleted) :
    countMsg m s.fireObservers.log = countMsg m s.log := by
  rw [Shutdown.fireObservers]
  split
  · simp [countMsg_append, countMsg_replicate_allTasks m _ h]
  · rfl

lemma fireObservers_log_mem (s : Shutdown) (e : LogEntry) (h : e ∈ s.log) :
    e ∈ s.fireObservers.log := by
  rw [Shutdown.fireObservers]
  split
  · simp only [List.mem_append]; exact Or.inl h
  · exact h

lemma settle_of_cancelled (s : Shutdown) (h : s.runtimeCancelled = true) :
    s.settle = Shutdown.fireObservers
      { s with stopWaiters := []
               stopped := s.stopped ++ s.stopWaiters
               log := s.log ++ stopLog s.stopWaiters
               pendingCount := s.pendingCount - s.stopWaiters.length } := by
  rw [Shutdown.settle, if_pos h, runWaiters_eq]

lemma settle_of_live (s : Shutdown) (h : s.runtimeCancelled = false) :
    s.settle = s := by
  rw [Shutdown.settle, h]; rfl

lemma settle_runtimeCancelled (s : Shutdown) :
    s.settle.runtimeCancelled = s.runtimeCancelled := by
  cases h : s.runtimeCancelled
  · rw [settle_of_live s h, h]
  · rw [settle_of_cancelled s h, fireObservers_runtimeCancelled]
    exact h

lemma settle_runningTasks (s : Shutdown) :
    s.settle.runningTasks = s.runningTasks := by
  cases h : s.runtimeCancelled
  · rw [settle_of_live s h]
  · rw [settle_of_cancelled s h, fireObservers_runningTasks]

lemma settle_exitCalls (s : Shutdown) :
    s.settle.exitCalls = s.exitCalls := by
  cases h : s.runtimeCancelled
  · rw [settle_of_live s h]
  · rw [settle_of_cancelled s h, fireObservers_exitCalls]

lemma settle_cfg (s : Shutdown) :
    s.settle.cfg = s.cfg := by
  cases h : s.runtimeCancelled
  · rw [settle_of_live s h]
  · rw [settle_of_cancelled s h, fireObservers_cfg]

lemma settle_shutdownCancelled (s : Shutdown) :
    s.settle.shutdownCancelled =
      (s.shutdownCancelled ||
        (s.runtimeCancelled &&
          (decide (s.pendingCount - s.stopWaiters.length = 0) && s.observers.any id))) := by
  cases h : s.runtimeCancelled
  · rw [settle_of_live s h]; simp
  · rw [settle_of_cancelled s h, fireObservers_shutdownCancelled]; simp

lemma settle_countMsg (m : Msg) (s : Shutdown)
    (h1 : m ≠ Msg.allTasksCompleted) (h2 : m ≠ Msg.failedToStopService) :
    countMsg m s.settle.log = countMsg m s.log := by
  cases h : s.runtimeCancelled
  · rw [settle_of_live s h]
  · rw [settle_of_cancelled s h, fireObservers_countMsg m _ h1]
    simp [countMsg_append, countMsg_stopLog m _ h2]

lemma settle_log_mem (s : Shutdown) (e : LogEntry) (h : e ∈ s.log) :
    e ∈ s.settle.log := by
  cases hc : s.runtimeCancelled
  · rw [settle_of_live s hc]; exact h
  · rw [settle_of_cancelled s hc]
    exact fireObservers_log_mem _ e (by simp only [List.mem_append]; exact Or.inl h)

lemma settle_stopped_of_cancelled (s : Shutdown) (h : s.runtimeCancelled = true) :
    s.settle.stopped = s.stopped ++ s.stopWaiters := by
  rw [settle_of_cancelled s h, fireObservers_stopped]

lemma settle_stopWaiters_of_cancelled (s : Shutdown) (h : s.runtimeCancelled = true) :
    s.settle.stopWaiters = [] := by
  rw [settle_of_cancelled s h, fireObservers_stopWaiters]

lemma settle_pendingCount_of_cancelled (s : Shutdown) (h : s.runtimeCancelled = true) :
    s.settle.pendingCount = s.pendingCount - s.stopWaiters.length := by
  rw [settle_of_cancelled s h, fireObservers_pendingCount]

lemma completionCount_append (l1 l2 : List LogEntry) :
    completionCount (l1 ++ l2) = completionCount l1 + completionCount l2 := by
  simp only [completionCount, countMsg_append]
  omega

lemma settle_completionCount (s : Shutdown) :
    completionCount s.settle.log = completionCount s.log := by
  rw [completionCount, settle_countMsg _ _ (by decide) (by decide),
    settle_countMsg _ _ (by decide) (by decide)]
  rfl

lemma completionCount_init :
    completionCount [(⟨Level.info, Msg.initializingShutdown, none⟩ : LogEntry)] = 0 := by decide

lemma completionCount_graceful :
    completionCount [(⟨Level.info, Msg.gracefullyCompleted, none⟩ : LogEntry)] = 1 := by decide

lemma completionCount_timedOut :
    completionCount [(⟨Level.error, Msg.timedOut, none⟩ : LogEntry)] = 1 := by decide

lemma completionCount_forceful :
    completionCount [(⟨Level.info, Msg.shuttingDownForcefully, none⟩ : LogEntry)] = 0 := by decide

lemma shutdown_runtimeCancelled (s : Shutdown) : s.shutdown.runtimeCancelled = true := by
  cases hf : s.cfg.Force <;>
  cases hg : (s.shutdownCancelled || (s.willDrain && decide (maxStop s.stopWaiters ≤ s.cfg.Timeout))) <;>
  simp [Shutdown.shutdown, hf, hg, settle_runtimeCancelled]

lemma shutdown_cfg (s : Shutdown) : s.shutdown.cfg = s.cfg := by
  cases hf : s.cfg.Force <;>
  cases hg : (s.shutdownCancelled || (s.willDrain && decide (maxStop s.stopWaiters ≤ s.cfg.Timeout))) <;>
  simp [Shutdown.shutdown, hf, hg, settle_cfg]

lemma shutdown_runningTasks (s : Shutdown) : s.shutdown.runningTasks = s.runningTasks := by
  cases hf : s.cfg.Force <;>
  cases hg : (s.shutdownCancelled || (s.willDrain && decide (maxStop s.stopWaiters ≤ s.cfg.Timeout))) <;>
  simp [Shutdown.shutdown, hf, hg, settle_runningTasks]

lemma shutdown_stopWaiters (s : Shutdown) : s.shutdown.stopWaiters = [] := by
  cases hf : s.cfg.Force <;>
  cases hg : (s.shutdownCancelled || (s.willDrain && decide (maxStop s.stopWaiters ≤ s.cfg.Timeout))) <;>
  simp [Shutdown.shutdown, hf, hg, settle_stopWaiters_of_cancelled]

lemma shutdown_pendingCount (s : Shutdown) :
    s.shutdown.pendingCount = s.pendingCount - s.stopWaiters.length := by
  cases hf : s.cfg.Force <;>
  cases hg : (s.shutdownCancelled || (s.willDrain && decide (maxStop s.stopWaiters ≤ s.cfg.Timeout))) <;>
  simp [Shutdown.shutdown, hf, hg, settle_pendingCount_of_cancelled]

lemma shutdown_stopped (s : Shutdown) : s.shutdown.stopped = s.stopped ++ s.stopWaiters := by
  cases hf : s.cfg.Force <;>
  cases hg : (s.shutdownCancelled || (s.willDrain && decide (maxStop s.stopWaiters ≤ s.cfg.Timeout))) <;>
  simp [Shutdown.shutdown, hf, hg, settle_stopped_of_cancelled]

lemma shutdown_exitCalls (s : Shutdown) :
    s.shutdown.exitCalls = s.exitCalls ++ (if s.cfg.Force then [ExitCodeSigTerm] else []) := by
  cases hf : s.cfg.Force <;>
  cases hg : (s.shutdownCancelled || (s.willDrain && decide (maxStop s.stopWaiters ≤ s.cfg.Timeout))) <;>
  simp [Shutdown.shutdown, hf, hg, settle_exitCalls]

lemma shutdown_shutdownCancelled (s : Shutdown) : s.shutdown.shutdownCancelled = true := by
  cases hg : (s.shutdownCancelled || (s.willDrain && decide (maxStop s.stopWaiters ≤ s.cfg.Timeout)))
  · cases hf : s.cfg.Force <;> simp [Shutdown.shutdown, hf, hg]
  · cases hf : s.cfg.Force <;>
    · simp only [Bool.or_eq_true, Bool.and_eq_true, decide_eq_true_eq, Shutdown.willDrain,
        Nat.beq_eq_true_eq] at hg
      simp [Shutdown.shutdown, hf, hg, settle_shutdownCancelled, Shutdown.willDrain]
      rcases hg with hsc | ⟨⟨h0, hlen⟩, _⟩
      · simp [hsc]
      · simp [hlen]

lemma shutdown_completionCount (s : Shutdown) :
    completionCount s.shutdown.log = completionCount s.log + 1 := by
  cases hf : s.cfg.Force <;>
  cases hg : (s.shutdownCancelled || (s.willDrain && decide (maxStop s.stopWaiters ≤ s.cfg.Timeout))) <;>
  (simp [Shutdown.shutdown, hf, hg, completionCount_append, settle_completionCount,
    completionCount_init, completionCount_graceful, completionCount_timedOut,
    completionCount_forceful]) <;> decide

lemma shutdown_countMsg_graceful (s : Shutdown)
    (hg : (s.shutdownCancelled || (s.willDrain && decide (maxStop s.stopWaiters ≤ s.cfg.Timeout))) = true) :
    countMsg Msg.gracefullyCompleted s.shutdown.log = countMsg Msg.gracefullyCompleted s.log + 1 ∧
    countMsg Msg.timedOut s.shutdown.log = countMsg Msg.timedOut s.log := by
  have e1 : ∀ t : Shutdown,
      countMsg Msg.gracefullyCompleted t.settle.log = countMsg Msg.gracefullyCompleted t.log :=
    fun t => settle_countMsg _ t (by decide) (by decide)
  have e2 : ∀ t : Shutdown,
      countMsg Msg.timedOut t.settle.log = countMsg Msg.timedOut t.log :=
    fun t => settle_countMsg _ t (by decide) (by decide)
  have g1 : countMsg Msg.gracefullyCompleted
      [(⟨Level.info, Msg.initializingShutdown, none⟩ : LogEntry)] = 0 := by decide
  have g2 : countMsg Msg.gracefullyCompleted
      [(⟨Level.info, Msg.gracefullyCompleted, none⟩ : LogEntry)] = 1 := by decide
  have g3 : countMsg Msg.gracefullyCompleted
      [(⟨Level.info, Msg.gracefullyCompleted, none⟩ : LogEntry),
       (⟨Level.info, Msg.shuttingDownForcefully, none⟩ : LogEntry)] = 1 := by decide
  have t1 : countMsg Msg.timedOut
      [(⟨Level.info, Msg.initializingShutdown, none⟩ : LogEntry)] = 0 := by decide
  have t2 : countMsg Msg.timedOut
      [(⟨Level.info, Msg.gracefullyCompleted, none⟩ : LogEntry)] = 0 := by decide
  have t3 : countMsg Msg.timedOut
      [(⟨Level.info, Msg.gracefullyCompleted, none⟩ : LogEntry),
       (⟨Level.info, Msg.shuttingDownForcefully, none⟩ : LogEntry)] = 0 := by decide
  cases hf : s.cfg.Force <;>
  (constructor <;>
    (simp [Shutdown.shutdown, hf, hg, countMsg_append, e1, e2, g1, g2, g3, t1, t2, t3]))

lemma Track_of_cancelled (s : Shutdown) (a : TrackArg) (h : s.runtimeCancelled = true) :
    s.Track a = (some ErrContextCancelled, s) := by
  simp [Shutdown.Track, h]

lemma Track_nil_of_live (s : Shutdown) (h : s.runtimeCancelled = false) :
    s.Track .nil = (none, { s with pendingCount := s.pendingCount + 1 }) := by
  simp [Shutdown.Track, h]

lemma Track_notTrackable_of_live (s : Shutdown) (h : s.runtimeCancelled = false) :
    s.Track .notTrackable = (none, { s with pendingCount := s.pendingCount + 1 }) := by
  simp [Shutdown.Track, h]

lemma Track_startErr_of_live (s : Shutdown) (svc : Service) (e : String)
    (h : s.runtimeCancelled = false) (hse : svc.startErr = some e) :
    s.Track (.trackable svc) =
      (some ("shutdown: starting service service: " ++ e),
       { s with pendingCount := s.pendingCount + 1
                stopWaiters := s.stopWaiters ++ [svc] }) := by
  simp [Shutdown.Track, h, hse]

lemma Track_ok_of_live (s : Shutdown) (svc : Service)
    (h : s.runtimeCancelled = false) (hse : svc.startErr = none) :
    s.Track (.trackable svc) =
      (none,
       { s with pendingCount := s.pendingCount + 1
                stopWaiters := s.stopWaiters ++ [svc]
                log := s.log ++ [⟨Level.debug, Msg.startingService, none⟩] }) := by
  simp [Shutdown.Track, h, hse]

lemma Go_of_cancelled (s : Shutdown) (h : s.runtimeCancelled = true) :
    s.Go = (some ErrContextCancelled, s) := by
  simp [Shutdown.Go, h]

lemma Go_of_live (s : Shutdown) (h : s.runtimeCancelled = false) :
    s.Go = (none, { s with pendingCount := s.pendingCount + 1
                           log := s.log ++ [⟨Level.debug, Msg.startingTask, none⟩]
                           runningTasks := s.runningTasks + 1 }) := by
  simp [Shutdown.Go, h]

lemma step_runtimeCancelled (s : Shutdown) (o : Op) (h : s.runtimeCancelled = true) :
    (s.step o).runtimeCancelled = true := by
  cases o with
  | track a => rw [Shutdown.step, Track_of_cancelled s a h]; exact h
  | go => rw [Shutdown.step, Go_of_cancelled s h]; exact h
  | taskDone => rw [Shutdown.step, Shutdown.taskDone]; split <;> exact h
  | drain => rw [Shutdown.step]; exact rfl
  | shutdown => exact shutdown_runtimeCancelled s
  | settle => rw [Shutdown.step, settle_runtimeCancelled]; exact h

lemma exec_runtimeCancelled (ops : List Op) (s : Shutdown) (h : s.runtimeCancelled = true) :
    (s.exec ops).runtimeCancelled = true := by
  induction ops generalizing s with
  | nil => exact h
  | cons o rest ih => exact ih (s.step o) (step_runtimeCancelled s o h)

lemma step_slack (s : Shutdown) (o : Op) (n : Nat)
    (h : s.stopWaiters.length + s.runningTasks + n ≤ s.pendingCount) :
    (s.step o).stopWaiters.length + (s.step o).runningTasks + n ≤ (s.step o).pendingCount := by
  cases o with
  | track a =>
    cases hr : s.runtimeCancelled
    · cases a with
      | nil => rw [Shutdown.step, Track_nil_of_live s hr]; simpa using Nat.le_succ_of_le h
      | notTrackable =>
        rw [Shutdown.step, Track_notTrackable_of_live s hr]
        simpa using Nat.le_succ_of_le h
      | trackable svc =>
        cases hse : svc.startErr with
        | some e => rw [Shutdown.step, Track_startErr_of_live s svc e hr hse]; simp; omega
        | none => rw [Shutdown.step, Track_ok_of_live s svc hr hse]; simp; omega
    · rw [Shutdown.step, Track_of_cancelled s a hr]; exact h
  | go =>
    cases hr : s.runtimeCancelled
    · rw [Shutdown.step, Go_of_live s hr]; simp; omega
    · rw [Shutdown.step, Go_of_cancelled s hr]; exact h
  | taskDone =>
    rw [Shutdown.step, Shutdown.taskDone]
    split
    · exact h
    · simp; omega
  | drain => rw [Shutdown.step, Shutdown.Drain]; simpa using h
  | shutdown =>
    rw [Shutdown.step, shutdown_stopWaiters, shutdown_runningTasks, shutdown_pendingCount]
    simp
    omega
  | settle =>
    cases hr : s.runtimeCancelled
    · rw [Shutdown.step, settle_of_live s hr]; exact h
    · rw [Shutdown.step, settle_stopWaiters_of_cancelled s hr, settle_runningTasks,
        settle_pendingCount_of_cancelled s hr]
      simp
      omega

lemma exec_slack (ops : List Op) (s : Shutdown) (n : Nat)
    (h : s.stopWaiters.length + s.runningTasks + n ≤ s.pendingCount) :
    (s.exec ops).stopWaiters.length + (s.exec ops).runningTasks + n ≤ (s.exec ops).pendingCount := by
  induction ops generalizing s with
  | nil => exact h
  | cons o rest ih => exact ih (s.step o) (step_slack s o n h)

lemma step_exitCalls (s : Shutdown) (o : Op) :
    (s.step o).exitCalls = s.exitCalls ∨
    (s.step o).exitCalls = s.exitCalls ++ [ExitCodeSigTerm] := by
  cases o with
  | track a =>
    cases hr : s.runtimeCancelled
    · cases a with
      | nil => rw [Shutdown.step, Track_nil_of_live s hr]; exact Or.inl rfl
      | notTrackable => rw [Shutdown.step, Track_notTrackable_of_live s hr]; exact Or.inl rfl
      | trackable svc =>
        cases hse : svc.startErr with
        | some e => rw [Shutdown.step, Track_startErr_of_live s svc e hr hse]; exact Or.inl rfl
        | none => rw [Shutdown.step, Track_ok_of_live s svc hr hse]; exact Or.inl rfl
    · rw [Shutdown.step, Track_of_cancelled s a hr]; exact Or.inl rfl
  | go =>
    cases hr : s.runtimeCancelled
    · rw [Shutdown.step, Go_of_live s hr]; exact Or.inl rfl
    · rw [Shutdown.step, Go_of_cancelled s hr]; exact Or.inl rfl
  | taskDone =>
    rw [Shutdown.step, Shutdown.taskDone]
    split
    · exact Or.inl rfl
    · exact Or.inl rfl
  | drain => exact Or.inl rfl
  | shutdown =>
    rw [Shutdown.step, shutdown_exitCalls]
    cases hf : s.cfg.Force
    · simp
    · simp
  | settle => rw [Shutdown.step, settle_exitCalls]; exact Or.inl rfl

lemma exec_exitCalls_all (ops : List Op) (s : Shutdown)
    (h : s.exitCalls.all (fun c => c == ExitCodeSigTerm) = true) :
    (s.exec ops).exitCalls.all (fun c => c == ExitCodeSigTerm) = true := by
  induction ops generalizing s with
  | nil => exact h
  | cons o rest ih =>
    refine ih (s.step o) ?_
    rcases step_exitCalls s o with heq | heq <;> rw [heq]
    · exact h
    · rw [List.all_append, h]; decide

lemma mem_stopLog (l : List Service) (svc : Service) (e2 : String)
    (hmem : svc ∈ l) (he : svc.stopErr = some e2) :
    (⟨Level.error, Msg.failedToStopService, some e2⟩ : LogEntry) ∈ stopLog l := by
  induction l with
  | nil => cases hmem
  | cons a rest ih =>
    rw [stopLog]
    rcases List.mem_cons.mp hmem with rfl | hmem2
    · rw [he]; exact List.mem_append_left _ (by simp)
    · exact List.mem_append_right _ (ih hmem2)

lemma mem_settle_stop_entry (t : Shutdown) (svc : Service) (e2 : String)
    (hw : svc ∈ t.stopWaiters) (he2 : svc.stopErr = some e2) (hc : t.runtimeCancelled = true) :
    (⟨Level.error, Msg.failedToStopService, some e2⟩ : LogEntry) ∈ t.settle.log := by
  rw [settle_of_cancelled t hc]
  apply fireObservers_log_mem
  simp only [List.mem_append]
  right
  exact mem_stopLog t.stopWaiters svc e2 hw he2

/-! Claim theorems. -/

/-- C1: evaluation of the code at the failing input.  `Track(nil)` on a
fresh live coordinator (and likewise any non-Trackable value) is a no-op
success as far as the returned error goes, and it increments the pending
count — but the count is never decremented again: the source only defers
`waitGroup.Done()` inside the goroutine spawned for `Trackable` services, so
after any further sequence of operations the wait-group counter stays at
least 1 and the "all tasks finished" condition (`willDrain`) can never hold,
contradicting the claimed symmetric increment/decrement. -/
theorem c1_track_nil_leaks_pending_count (cfg : Config) (ops : List Op) :
    ((New cfg).Track TrackArg.nil).1 = none ∧
    ((New cfg).Track TrackArg.nil).2.pendingCount = 1 ∧
    (New cfg).Track TrackArg.notTrackable = (New cfg).Track TrackArg.nil ∧
    1 ≤ (((New cfg).Track TrackArg.nil).2.exec ops).pendingCount ∧
    (((New cfg).Track TrackArg.nil).2.exec ops).willDrain = false := by
  have hlive : (New cfg).runtimeCancelled = false := rfl
  have hnt : (New cfg).Track TrackArg.notTrackable = (New cfg).Track TrackArg.nil := by
    rw [Track_nil_of_live _ hlive, Track_notTrackable_of_live _ hlive]
  set s1 := ((New cfg).Track TrackArg.nil).2 with hs1
  have hfields : s1.stopWaiters.length + s1.runningTasks + 1 ≤ s1.pendingCount := by
    rw [hs1, Track_nil_of_live _ hlive]
    simp [New]
  have key := exec_slack ops s1 1 hfields
  refine ⟨?_, ?_, hnt, ?_, ?_⟩
  · rw [Track_nil_of_live _ hlive]
  · rw [hs1, Track_nil_of_live _ hlive]
    rfl
  · omega
  · cases hb : (s1.exec ops).willDrain
    · rfl
    · exfalso
      rw [Shutdown.willDrain] at hb
      simp only [Bool.and_eq_true, beq_iff_eq, Nat.beq_eq_true_eq] at hb
      omega

/-- C4: after `Drain` or `Shutdown` has been invoked, every later `Track` or
`Go` call — no matter which further operations happen in between — fails
synchronously with `ErrContextCancelled`, because the runtime context stays
cancelled forever. -/
theorem c4_track_go_after_cancel_always_fail (s : Shutdown) (ops : List Op) (a : TrackArg) :
    ((s.Drain.exec ops).Track a).1 = some ErrContextCancelled ∧
    ((s.Drain.exec ops).Go).1 = some ErrContextCancelled ∧
    ((s.shutdown.exec ops).Track a).1 = some ErrContextCancelled ∧
    ((s.shutdown.exec ops).Go).1 = some ErrContextCancelled := by
  have h1 : s.Drain.runtimeCancelled = true := rfl
  have h2 := exec_runtimeCancelled ops _ h1
  have h3 := exec_runtimeCancelled ops _ (shutdown_runtimeCancelled s)
  exact ⟨by rw [Track_of_cancelled _ _ h2], by rw [Go_of_cancelled _ h2],
         by rw [Track_of_cancelled _ _ h3], by rw [Go_of_cancelled _ h3]⟩

/-- C7: `ExitCodeSigTerm` is 128 plus the SIGTERM signal number 15, i.e. 143,
and every process-termination invocation reachable from a fresh coordinator
carries exactly this code. -/
theorem c7_exit_code_always_143 (cfg : Config) (ops : List Op) :
    ExitCodeSigTerm = 128 + 15 ∧ ExitCodeSigTerm = 143 ∧
    ((New cfg).exec ops).exitCalls.all (fun c => c == ExitCodeSigTerm) = true :=
  ⟨rfl, rfl, exec_exitCalls_all ops (New cfg) rfl⟩

/-- C8: `Config.Validate` fails (with `ErrInvalidTimeout`) exactly when the
timeout is zero or negative, and `Config.SetDefaults` yields a 3-second
timeout with force enabled. -/
theorem c8_config_validate_iff_and_defaults (c : Config) :
    (Config.Validate c = Except.error ErrInvalidTimeout ↔ c.Timeout ≤ 0) ∧
    (Config.Validate c = Except.ok () ↔ 0 < c.Timeout) ∧
    (Config.SetDefaults c).Timeout = 3 * Second ∧
    (Config.SetDefaults c).Force = true := by
  refine ⟨?_, ?_, rfl, rfl⟩ <;>
    (rw [Config.Validate]; split) <;> simp_all

/-- C9: `Done` is itself blocking: it returns nothing (stays suspended on
`<-runtimeCtx.Done()`) while the runtime scope is live, and returns the
shutdown scope's done channel exactly once the runtime scope has been
cancelled. -/
theorem c9_done_blocks_until_runtime_cancelled (s : Shutdown) :
    (s.Done = some DoneChan.shutdownChan ↔ s.runtimeCancelled = true) ∧
    (s.Done = none ↔ s.runtimeCancelled = false) := by
  cases h : s.runtimeCancelled <;> simp [Shutdown.Done, h]

/-- C2 counterexample: force enabled, grace timeout 2 s, one tracked service
whose stop takes 1 s ≤ 2 s.  The claim says the process-termination function
is never invoked, but the code reaches the unconditional `if s.cfg.Force`
block right after the race resolves gracefully and calls `ExitFn(143)`. -/
theorem c2_counterexample_exit_despite_graceful :
    ((New ⟨2 * Second, true⟩).Track
      (TrackArg.trackable ⟨none, none, Second⟩)).2.shutdown.exitCalls = [143] ∧
    countMsg Msg.gracefullyCompleted
      ((New ⟨2 * Second, true⟩).Track
        (TrackArg.trackable ⟨none, none, Second⟩)).2.shutdown.log = 1 := by
  decide

/-- C2 amended: with force enabled, a grace timeout at least as long as the
slowest tracked service's stop duration, and all pending work owned by
trackable stop waiters, `Shutdown` resolves the race gracefully — every stop
call completes, "gracefully completed" (and never "timed out") is logged,
and `Wait` unblocks — but the injected process-termination function is still
invoked, exactly once, with `ExitCodeSigTerm`, because the force-exit block
runs unconditionally after the race. -/
theorem c2_amended_graceful_shutdown_still_exits (s : Shutdown)
    (hf : s.cfg.Force = true)
    (ht : s.runningTasks = 0)
    (hp : s.pendingCount = s.stopWaiters.length)
    (hd : maxStop s.stopWaiters ≤ s.cfg.Timeout) :
    s.shutdown.exitCalls = s.exitCalls ++ [ExitCodeSigTerm] ∧
    countMsg Msg.gracefullyCompleted s.shutdown.log
      = countMsg Msg.gracefullyCompleted s.log + 1 ∧
    countMsg Msg.timedOut s.shutdown.log = countMsg Msg.timedOut s.log ∧
    s.shutdown.stopped = s.stopped ++ s.stopWaiters ∧
    s.shutdown.waitReturns = true := by
  have hg : (s.shutdownCancelled ||
      (s.willDrain && decide (maxStop s.stopWaiters ≤ s.cfg.Timeout))) = true := by
    simp [Shutdown.willDrain, ht, hp, hd]
  obtain ⟨hcg, hct⟩ := shutdown_countMsg_graceful s hg
  refine ⟨?_, hcg, hct, shutdown_stopped s, ?_⟩
  · rw [shutdown_exitCalls, hf]
    rfl
  · rw [Shutdown.waitReturns, shutdown_runtimeCancelled, shutdown_shutdownCancelled]
    rfl

/-- C2 witness: the amended theorem applied to the concrete run of the
counterexample (timeout 2 s, force on, one service stopping in 1 s). -/
theorem c2_amended_witness :
    ((New ⟨2 * Second, true⟩).Track
      (TrackArg.trackable ⟨none, none, Second⟩)).2.shutdown.waitReturns = true ∧
    ((New ⟨2 * Second, true⟩).Track
      (TrackArg.trackable ⟨none, none, Second⟩)).2.shutdown.exitCalls
      = ((New ⟨2 * Second, true⟩).Track
          (TrackArg.trackable ⟨none, none, Second⟩)).2.exitCalls ++ [ExitCodeSigTerm] :=
  ⟨(c2_amended_graceful_shutdown_still_exits
      ((New ⟨2 * Second, true⟩).Track (TrackArg.trackable ⟨none, none, Second⟩)).2
      (by decide) (by decide) (by decide) (by decide)).2.2.2.2,
   (c2_amended_graceful_shutdown_still_exits
      ((New ⟨2 * Second, true⟩).Track (TrackArg.trackable ⟨none, none, Second⟩)).2
      (by decide) (by decide) (by decide) (by decide)).1⟩

/-- C3 counterexample: `Shutdown` has no once-guard.  Calling it twice on a
coordinator tracking one healthy service produces two completion log lines
(with force disabled so the run is observable), and with force enabled and an
exit function that returns, two termination invocations — the claim says
exactly one line and at most one invocation. -/
theorem c3_counterexample_two_completion_lines :
    completionCount ((New ⟨2 * Second, false⟩).Track
      (TrackArg.trackable ⟨none, none, Second⟩)).2.shutdown.shutdown.log = 2 ∧
    ((New ⟨2 * Second, true⟩).Track
      (TrackArg.trackable ⟨none, none, Second⟩)).2.shutdown.shutdown.exitCalls.length = 2 := by
  decide

/-- C3 amended: the scope cancellations themselves are idempotent (after any
`Shutdown` call both contexts are and remain cancelled), but each call logs
its own completion line — "gracefully completed" or "timed out", exactly one
per call — and performs its own force-exit invocation when `force` is set, so
two calls produce two completion lines and up to two termination invocations,
not one. -/
theorem c3_amended_one_completion_line_per_call (s : Shutdown) :
    completionCount s.shutdown.log = completionCount s.log + 1 ∧
    s.shutdown.exitCalls.length
      = s.exitCalls.length + (if s.cfg.Force then 1 else 0) ∧
    completionCount s.shutdown.shutdown.log = completionCount s.log + 2 ∧
    s.shutdown.shutdown.exitCalls.length
      = s.exitCalls.length + (if s.cfg.Force then 2 else 0) ∧
    s.shutdown.runtimeCancelled = true ∧
    s.shutdown.shutdownCancelled = true := by
  have hc1 := shutdown_completionCount s
  have hc2 := shutdown_completionCount s.shutdown
  have he1 := shutdown_exitCalls s
  have he2 := shutdown_exitCalls s.shutdown
  have hcfg := shutdown_cfg s
  refine ⟨hc1, ?_, by omega, ?_,
    shutdown_runtimeCancelled s, shutdown_shutdownCancelled s⟩
  · rw [he1]
    cases hf : s.cfg.Force <;> simp [hf]
  · rw [he2, he1, hcfg]
    cases hf : s.cfg.Force <;> simp [hf]

/-- C5: `Drain` cancels the runtime scope and leaves the shutdown scope
untouched (its observer has no cancel callback): previously tracked services
all receive their stop calls during the settle, yet `Wait` stays blocked, and
only an explicit `Shutdown` afterwards unblocks it. -/
theorem c5_drain_leaves_shutdown_scope_live (s : Shutdown)
    (h1 : s.shutdownCancelled = false) (h2 : s.observers.any id = false) :
    s.Drain.settle.runtimeCancelled = true ∧
    s.Drain.settle.shutdownCancelled = false ∧
    (∀ svc ∈ s.stopWaiters, svc ∈ s.Drain.settle.stopped) ∧
    s.Drain.settle.waitReturns = false ∧
    s.Drain.settle.shutdown.waitReturns = true := by
  have hrc : s.Drain.runtimeCancelled = true := rfl
  have hsc : s.Drain.settle.shutdownCancelled = false := by
    rw [settle_shutdownCancelled]
    simp [Shutdown.Drain, h1, h2]
  refine ⟨?_, hsc, ?_, ?_, ?_⟩
  · rw [settle_runtimeCancelled]
    exact hrc
  · intro svc hmem
    rw [settle_stopped_of_cancelled _ hrc]
    simp only [Shutdown.Drain, List.mem_append]
    exact Or.inr hmem
  · rw [Shutdown.waitReturns, hsc, settle_runtimeCancelled, hrc]
    rfl
  · rw [Shutdown.waitReturns, shutdown_runtimeCancelled, shutdown_shutdownCancelled]
    rfl

/-- C5 witness: concrete coordinator with one tracked service; after `Drain`
and the settle the shutdown scope is still live and `Wait` is blocked, after
the subsequent `Shutdown` it unblocks. -/
theorem c5_witness :
    ((New ⟨2 * Second, false⟩).Track
      (TrackArg.trackable ⟨none, none, Second⟩)).2.Drain.settle.shutdownCancelled = false ∧
    ((New ⟨2 * Second, false⟩).Track
      (TrackArg.trackable ⟨none, none, Second⟩)).2.Drain.settle.waitReturns = false ∧
    ((New ⟨2 * Second, false⟩).Track
      (TrackArg.trackable ⟨none, none, Second⟩)).2.Drain.settle.shutdown.waitReturns = true :=
  ⟨(c5_drain_leaves_shutdown_scope_live
      ((New ⟨2 * Second, false⟩).Track (TrackArg.trackable ⟨none, none, Second⟩)).2
      (by decide) (by decide)).2.1,
   (c5_drain_leaves_shutdown_scope_live
      ((New ⟨2 * Second, false⟩).Track (TrackArg.trackable ⟨none, none, Second⟩)).2
      (by decide) (by decide)).2.2.2.1,
   (c5_drain_leaves_shutdown_scope_live
      ((New ⟨2 * Second, false⟩).Track (TrackArg.trackable ⟨none, none, Second⟩)).2
      (by decide) (by decide)).2.2.2.2⟩

/-- C6: a tracked service's start error is wrapped with context and returned
synchronously by `Track` (and a successful start returns nil regardless of
the stop behaviour), while a stop error is only logged — at error severity,
with the error attached — during wind-down; no operation of the embedding
returns it to any caller. -/
theorem c6_start_err_returned_stop_err_logged (s : Shutdown) (svc : Service)
    (h : s.runtimeCancelled = false) :
    (∀ e, svc.startErr = some e →
      (s.Track (.trackable svc)).1 = some ("shutdown: starting service service: " ++ e)) ∧
    (svc.startErr = none → (s.Track (.trackable svc)).1 = none) ∧
    (∀ e2, svc.stopErr = some e2 →
      (⟨Level.error, Msg.failedToStopService, some e2⟩ : LogEntry) ∈
        (s.Track (.trackable svc)).2.Drain.settle.log) := by
  refine ⟨?_, ?_, ?_⟩
  · intro e he
    rw [Track_startErr_of_live s svc e h he]
  · intro he
    rw [Track_ok_of_live s svc h he]
  · intro e2 he2
    apply mem_settle_stop_entry _ svc e2 _ he2 rfl
    cases hse : svc.startErr with
    | some e =>
      rw [Track_startErr_of_live s svc e h hse]
      simp [Shutdown.Drain]
    | none =>
      rw [Track_ok_of_live s svc h hse]
      simp [Shutdown.Drain]

/-- C6 witness: a service whose start fails with "boom" and whose stop fails
with "bust", tracked on a fresh coordinator; the start error comes back
wrapped, the stop error shows up in the log during wind-down. -/
theorem c6_witness :
    ((New ⟨2 * Second, true⟩).Track
      (TrackArg.trackable ⟨some "boom", some "bust", 0⟩)).1
      = some ("shutdown: starting service service: " ++ "boom") ∧
    (⟨Level.error, Msg.failedToStopService, some "bust"⟩ : LogEntry) ∈
      ((New ⟨2 * Second, true⟩).Track
        (TrackArg.trackable ⟨some "boom", some "bust", 0⟩)).2.Drain.settle.log :=
  ⟨(c6_start_err_returned_stop_err_logged (New ⟨2 * Second, true⟩)
      ⟨some "boom", some "bust", 0⟩ (by decide)).1 "boom" rfl,
   (c6_start_err_returned_stop_err_logged (New ⟨2 * Second, true⟩)
      ⟨some "boom", some "bust", 0⟩ (by decide)).2.2 "bust" rfl⟩

/-- C10: when a tracked service's start fails, `Track` returns the wrapped
error but rolls nothing back: the pending count keeps its increment, the
stop waiter stays registered, the failed service's stop is still invoked
during wind-down, and only that waiter's completion releases its unit of the
pending count. -/
theorem c10_track_start_failure_keeps_tracking (s : Shutdown) (svc : Service) (e : String)
    (h : s.runtimeCancelled = false) (hse : svc.startErr = some e) :
    (s.Track (.trackable svc)).1 = some ("shutdown: starting service service: " ++ e) ∧
    (s.Track (.trackable svc)).2.pendingCount = s.pendingCount + 1 ∧
    (s.Track (.trackable svc)).2.stopWaiters = s.stopWaiters ++ [svc] ∧
    svc ∈ (s.Track (.trackable svc)).2.Drain.settle.stopped ∧
    (s.Track (.trackable svc)).2.Drain.settle.pendingCount
      = (s.pendingCount + 1) - (s.stopWaiters.length + 1) := by
  rw [Track_startErr_of_live s svc e h hse]
  refine ⟨rfl, rfl, rfl, ?_, ?_⟩
  · rw [settle_stopped_of_cancelled _ rfl]
    simp [Shutdown.Drain]
  · rw [settle_pendingCount_of_cancelled _ rfl]
    simp [Shutdown.Drain]

/-- C10 witness: the theorem applied to the "boom"-failing service on a fresh
coordinator. -/
theorem c10_witness :
    ((New ⟨2 * Second, true⟩).Track
      (TrackArg.trackable ⟨some "boom", none, 0⟩)).2.pendingCount = 0 + 1 ∧
    ((New ⟨2 * Second, true⟩).Track
      (TrackArg.trackable ⟨some "boom", none, 0⟩)).2.stopWaiters = [] ++ [⟨some "boom", none, 0⟩] ∧
    (⟨some "boom", none, 0⟩ : Service) ∈
      ((New ⟨2 * Second, true⟩).Track
        (TrackArg.trackable ⟨some "boom", none, 0⟩)).2.Drain.settle.stopped :=
  ⟨(c10_track_start_failure_keeps_tracking (New ⟨2 * Second, true⟩)
      ⟨some "boom", none, 0⟩ "boom" (by decide) rfl).2.1,
   (c10_track_start_failure_keeps_tracking (New ⟨2 * Second, true⟩)
      ⟨some "boom", none, 0⟩ "boom" (by decide) rfl).2.2.1,
   (c10_track_start_failure_keeps_tracking (New ⟨2 * Second, true⟩)
      ⟨some "boom", none, 0⟩ "boom" (by decide) rfl).2.2.2.1⟩

end GoParts
